import Mathlib

/-!
Verification development for the `ptx-builder` crate.

The Rust sources are embedded shallowly: paths are strings, the filesystem
and the process environment are explicit records of query functions, machine
integers are `Nat` reduced modulo `2 ^ 64` where the Rust code wraps, and
fallible Rust functions return `Except BuildErrorKind`.
-/

namespace PtxBuilder

deriving instance DecidableEq for Except

/-- String literal constants mirroring the literals of the Rust sources. -/
def cargoTomlFile : String := "Cargo.toml"

def srcDir : String := "src"

def libRsFile : String := "lib.rs"

def mainRsFile : String := "main.rs"

def cannotGetNameMsg : String := "Cannot get crate name"

def noTargetMsg : String :=
  "Unable to find neither `src/lib.rs` nor `src/main.rs` nor a [lib] nor [[bin]] section in `Cargo.toml`"

def binaryStr : String := "Binary"

def libraryStr : String := "Library"

def dashChar : Char := '-'

def underscoreChar : Char := '_'

def newlineChar : Char := '\n'

def pathSep : String := "/"

/-- Model of `Path::join`: model paths are plain strings joined by a
separator (the Rust `join` special-cases absolute right operands, which the
model paths never are). -/
def joinPath (a b : String) : String := a ++ pathSep ++ b

/-- Model of Rust `str::replace('-', "_")`: a single-character pattern
replaced by a single-character string is a character-wise map. -/
def replaceDashUnderscore (s : String) : String :=
  String.mk (List.map (fun c => if c = dashChar then underscoreChar else c) (String.toList s))

/-- Suffix test on strings (Rust `str::ends_with`), at the character-list
level. -/
def strEndsWith (s t : String) : Bool :=
  let a := String.toList s
  let b := String.toList t
  decide (List.drop (List.length a - List.length b) a = b)

/-- `CrateType` from `src/source.rs` (the analysed structural kind). -/
inductive CrateType where
  | Library
  | Binary
  | Mixed
  deriving DecidableEq, Repr

/-- `crate::builder::CrateType`, imported in `src/source.rs` as
`ChosenCrateType`.  The match in `Crate::get_crate_type` is exhaustive over
`Library` and `Binary`, so the enum has exactly these two variants. -/
inductive Builder.CrateType where
  | Library
  | Binary
  deriving DecidableEq, Repr

/-- `crate::builder::Profile` (Debug | Release), part of the build
configuration consumed by the Builder. -/
inductive Builder.Profile where
  | Debug
  | Release
  deriving DecidableEq, Repr

/-- A parsed semantic version, as a major-minor-patch triple. -/
abbrev SemVer := Nat × Nat × Nat

/-- `BuildErrorKind` from `src/error.rs`, restricted to the variants the
sources under scrutiny construct.  The required version range of
`CommandVersionNotFulfilled` is modelled by the spec predicate and omitted
from the payload. -/
inductive BuildErrorKind where
  | InvalidCratePath (path : String)
  | InternalError (msg : String)
  | OtherError
  | MissingCrateType
  | InvalidCrateType (kind : String)
  | CommandNotFound (command : String) (hint : String)
  | CommandFailed (command : String) (code : Int) (stderr : String)
  | CommandVersionNotFulfilled (command : String) (detected : SemVer) (hint : String)
  | BuildFailed (diagnostics : List String)
  deriving DecidableEq, Repr

/-- `Crate` from `src/source.rs`. -/
structure Crate where
  name : String
  path : String
  output_file_prefix : String
  crate_type : CrateType
  deriving DecidableEq, Repr

/-- Result of `fs::metadata`: the one bit `Crate::analyse` inspects. -/
structure FileMeta where
  isDir : Bool
  deriving DecidableEq, Repr

/-- The parsed manifest, with exactly the projections `Crate::analyse`
takes from the generic `toml::Value` (the parser itself is an external
collaborator per the spec). -/
structure Toml where
  packageName : Option String
  hasLib : Bool
  hasBin : Bool
  deriving DecidableEq, Repr

/-- Snapshot of the filesystem and working directory visible to
`Crate::analyse`: `currentDir` models `env::current_dir()`, `metadataAt`
models `fs::metadata` (`none` is the `Err(_)` arm), `readToml` models the
open-read-parse pipeline for `Cargo.toml`, and `pathExists` models
`Path::exists`. -/
structure Fs where
  currentDir : Except Unit String
  metadataAt : String → Option FileMeta
  readToml : String → Except Unit Toml
  pathExists : String → Bool

/-- `Crate::analyse` from `src/source.rs` lines 32-100, as nested matches in
source order: resolve the path against the working directory, require a
non-directory `Cargo.toml`, read and parse it, extract `package.name`,
derive the library/binary indicators, normalise the name, and classify the
crate kind. -/
def analyse (fs : Fs) (p : String) : Except BuildErrorKind Crate :=
  match Fs.currentDir fs with
  | Except.error _ => Except.error BuildErrorKind.OtherError
  | Except.ok cwd =>
    let path := joinPath cwd p
    match Fs.metadataAt fs (joinPath path cargoTomlFile) with
    | none => Except.error (BuildErrorKind.InvalidCratePath path)
    | some m =>
      if FileMeta.isDir m then Except.error (BuildErrorKind.InvalidCratePath path)
      else
        match Fs.readToml fs (joinPath path cargoTomlFile) with
        | Except.error _ => Except.error BuildErrorKind.OtherError
        | Except.ok cargoToml =>
          match Toml.packageName cargoToml with
          | none => Except.error (BuildErrorKind.InternalError cannotGetNameMsg)
          | some cargoTomlName =>
            let is_library := Toml.hasLib cargoToml
              || Fs.pathExists fs (joinPath (joinPath path srcDir) libRsFile)
            let is_binary := Toml.hasBin cargoToml
              || Fs.pathExists fs (joinPath (joinPath path srcDir) mainRsFile)
            let prefixStr := replaceDashUnderscore cargoTomlName
            match is_binary, is_library with
            | false, true => Except.ok ⟨cargoTomlName, path, prefixStr, CrateType.Library⟩
            | true, false => Except.ok ⟨cargoTomlName, path, prefixStr, CrateType.Binary⟩
            | true, true => Except.ok ⟨cargoTomlName, path, prefixStr, CrateType.Mixed⟩
            | false, false => Except.error (BuildErrorKind.InternalError noTargetMsg)

/-- `Crate::get_output_file_prefix`. -/
def Crate.get_output_file_prefix (c : Crate) : String := Crate.output_file_prefix c

/-- `Crate::get_name`. -/
def Crate.get_name (c : Crate) : String := Crate.name c

/-- `Crate::get_path`. -/
def Crate.get_path (c : Crate) : String := Crate.path c

/-- `Crate::get_crate_type` from `src/source.rs` lines 108-128, case for
case. -/
def Crate.get_crate_type (c : Crate) (t : Option Builder.CrateType) :
    Except BuildErrorKind Builder.CrateType :=
  match Crate.crate_type c, t with
  | CrateType.Library, some Builder.CrateType.Library => Except.ok Builder.CrateType.Library
  | CrateType.Library, none => Except.ok Builder.CrateType.Library
  | CrateType.Mixed, some Builder.CrateType.Library => Except.ok Builder.CrateType.Library
  | CrateType.Binary, some Builder.CrateType.Binary => Except.ok Builder.CrateType.Binary
  | CrateType.Binary, none => Except.ok Builder.CrateType.Binary
  | CrateType.Mixed, some Builder.CrateType.Binary => Except.ok Builder.CrateType.Binary
  | CrateType.Mixed, none => Except.error BuildErrorKind.MissingCrateType
  | CrateType.Library, some Builder.CrateType.Binary =>
    Except.error (BuildErrorKind.InvalidCrateType binaryStr)
  | CrateType.Binary, some Builder.CrateType.Library =>
    Except.error (BuildErrorKind.InvalidCrateType libraryStr)

/-! ### The output-path cache (`Crate::get_output_path`, `Crate::get_hash`)

`Crate::get_hash` feeds the crate through `std::hash::Hash` (derived) into a
`DefaultHasher`, which is SipHash-1-3 keyed with `(0, 0)`.  The hasher is
embedded bit-faithfully over `Nat` modulo `2 ^ 64`; the byte stream follows
the `Hash` impls of the field types (string bytes terminated by `0xff`, path
bytes followed by the hashed byte count, the enum discriminant as an 8-byte
little-endian word).  Model paths contain no redundant separators, so the
separator normalisation of `Path::hash` is the identity on them. -/

/-- Word size of the hasher state. -/
def M64 : Nat := 18446744073709551616

def wrap64 (n : Nat) : Nat := n % M64

def add64 (a b : Nat) : Nat := (a + b) % M64

def xor64 (a b : Nat) : Nat := Nat.xor a b

/-- Rotate a 64-bit word left by `k` (for `0 < k < 64` the two shifted
parts occupy disjoint bit ranges). -/
def rotl64 (x k : Nat) : Nat := Nat.lor ((x * 2 ^ k) % M64) (x / 2 ^ (64 - k))

/-- The four-word SipHash state. -/
structure SipState where
  v0 : Nat
  v1 : Nat
  v2 : Nat
  v3 : Nat
  deriving DecidableEq, Repr

/-- One SipRound (the ARX permutation of SipHash). -/
def sipRound (s : SipState) : SipState :=
  let a0 := add64 s.v0 s.v1
  let a1 := rotl64 s.v1 13
  let b1 := xor64 a1 a0
  let b0 := rotl64 a0 32
  let a2 := add64 s.v2 s.v3
  let a3 := rotl64 s.v3 16
  let b3 := xor64 a3 a2
  let c0 := add64 b0 b3
  let c3 := rotl64 b3 21
  let d3 := xor64 c3 c0
  let c2 := add64 a2 b1
  let c1 := rotl64 b1 17
  let d1 := xor64 c1 c2
  let d2 := rotl64 c2 32
  ⟨c0, d1, d2, d3⟩

/-- Initial SipHash state for the zero key used by `DefaultHasher::new`. -/
def sipInit : SipState :=
  ⟨0x736f6d6570736575, 0x646f72616e646f6d, 0x6c7967656e657261, 0x7465646279746573⟩

/-- Little-endian value of a byte list (first byte least significant). -/
def le64 (bs : List Nat) : Nat := List.foldr (fun b acc => b + 256 * acc) 0 bs

/-- Absorb one message word: xor into `v3`, one compression round
(SipHash-1-3 uses c = 1), xor into `v0`. -/
def sipCompress (s : SipState) (m : Nat) : SipState :=
  let t := sipRound ⟨s.v0, s.v1, s.v2, xor64 s.v3 m⟩
  ⟨xor64 t.v0 m, t.v1, t.v2, t.v3⟩

/-- Consume the byte stream in 8-byte little-endian words, pad the tail
with the total length byte in the top position, finalise with `v2 ^= 0xff`
and three rounds (SipHash-1-3 uses d = 3), and return `v0 ^ v1 ^ v2 ^ v3`. -/
def sipProcess (s : SipState) (bs : List Nat) (len : Nat) : Nat :=
  match bs with
  | b0 :: b1 :: b2 :: b3 :: b4 :: b5 :: b6 :: b7 :: rest =>
    sipProcess (sipCompress s (le64 [b0, b1, b2, b3, b4, b5, b6, b7])) rest len
  | tail =>
    let lastWord := wrap64 (le64 tail + (len % 256) * 2 ^ 56)
    let t := sipCompress s lastWord
    let u := sipRound (sipRound (sipRound ⟨t.v0, t.v1, xor64 t.v2 255, t.v3⟩))
    xor64 (xor64 u.v0 u.v1) (xor64 u.v2 u.v3)

/-- `DefaultHasher::finish` after writing the given byte stream. -/
def defaultHasherFinish (bs : List Nat) : Nat := sipProcess sipInit bs (List.length bs)

/-- UTF-8 bytes of a string, as naturals. -/
def strBytes (s : String) : List Nat :=
  List.map UInt8.toNat (ByteArray.toList (String.toUTF8 s))

/-- Byte stream of `str::hash`: the UTF-8 bytes followed by the `0xff`
terminator byte. -/
def strHashBytes (s : String) : List Nat := strBytes s ++ [0xff]

/-- An 8-byte little-endian encoding of a 64-bit value. -/
def u64le (n : Nat) : List Nat :=
  [n % 256, n / 2 ^ 8 % 256, n / 2 ^ 16 % 256, n / 2 ^ 24 % 256,
   n / 2 ^ 32 % 256, n / 2 ^ 40 % 256, n / 2 ^ 48 % 256, n / 2 ^ 56 % 256]

/-- Byte stream of `Path::hash`: the component bytes (already free of
redundant separators in the model) followed by the hashed byte count. -/
def pathHashBytes (p : String) : List Nat :=
  strBytes p ++ u64le (List.length (strBytes p))

/-- Discriminant of the derived `Hash` on the fieldless `CrateType` enum. -/
def CrateType.discr : CrateType → Nat
  | CrateType.Library => 0
  | CrateType.Binary => 1
  | CrateType.Mixed => 2

/-- Byte stream the derived `Hash` impl of `Crate` writes: the four fields
in declaration order. -/
def Crate.hashBytes (c : Crate) : List Nat :=
  strHashBytes (Crate.name c) ++ pathHashBytes (Crate.path c)
    ++ strHashBytes (Crate.output_file_prefix c)
    ++ u64le (CrateType.discr (Crate.crate_type c))

/-- `Crate::get_hash`. -/
def Crate.get_hash (c : Crate) : Nat := defaultHasherFinish (Crate.hashBytes c)

/-- Lowercase hexadecimal rendering, as `format!` with `:x` produces. -/
def hexStr (n : Nat) : String := String.mk (Nat.toDigits 16 n)

/-- The path value `Crate::get_output_path` builds before creating the
directory: `<OUT_DIR>/<output_file_prefix>/<hash hex>`.  The scratch root
`env!("OUT_DIR")` is a compile-time constant, passed explicitly. -/
def Crate.output_path_value (outDir : String) (c : Crate) : String :=
  joinPath (joinPath outDir (Crate.output_file_prefix c)) (hexStr (Crate.get_hash c))

/-- `Crate::get_output_path`: build the path and run `create_dir_all` on
it; a filesystem failure of the creation becomes `OtherError`. -/
def Crate.get_output_path (outDir : String) (createDirAllOk : Bool) (c : Crate) :
    Except BuildErrorKind String :=
  if createDirAllOk then Except.ok (Crate.output_path_value outDir c)
  else Except.error BuildErrorKind.OtherError

/-- `crate::builder::BuildConfiguration` knobs, per the spec data model:
`profile` (default Release), an optional chosen crate type, and the color
switch. -/
structure BuildConfiguration where
  profile : Builder.Profile
  crate_type : Option Builder.CrateType
  colors : Bool
  deriving DecidableEq, Repr

/-- Output-cache resolution viewed as a function of the (unit, config)
pair, as the spec describes it.  The source function `Crate::get_output_path`
takes no configuration argument, so the configuration is not consumed. -/
def outputPathOfUnitConfig (outDir : String) (c : Crate) (_cfg : BuildConfiguration) : String :=
  Crate.output_path_value outDir c

/-! ### The versioned executable runner

The file `src/executable.rs` of the repository is not part of the provided
sources; only its tests (`tests/executable.rs`) are.  The runner is
therefore modelled from the spec (section 4.3), with the tests fixing the
behaviour where they constrain it. -/

/-- Modelled from the spec: the `Executable` capability (`src/executable.rs`
is missing) — a logical command name, the verification and version hints,
and an optional required version range, modelled as a decidable predicate
on the detected semantic version. -/
structure ExecutableSpec where
  name : String
  verification_hint : String
  version_hint : String
  required_version : Option (SemVer → Bool)

/-- Modelled from the spec: the process environment the runner observes —
whether a command can be located on the search path, the semantic version
its version-query form reports (`none` models a parse failure), and the
exit code, stdout and stderr of a synchronous invocation with given
arguments and working directory. -/
structure ProcessEnv where
  found : String → Bool
  detectedVersion : String → Option SemVer
  exec : String → List String → Option String → Int × String × String

/-- Captured output of a successful run (`Output` of `src/executable.rs`). -/
structure Output where
  stdout : String
  stderr : String
  deriving DecidableEq, Repr

/-- Execution phase of the runner: spawn, then map a zero exit code to the
captured output and a non-zero one to `CommandFailed`.  The test
`cargo::should_provide_output` (`tests/executable.rs` line 19) pins the
captured stdout to keep its trailing newline, so stdout is returned exactly
as captured. -/
def execPhase (penv : ProcessEnv) (spec : ExecutableSpec) (args : List String)
    (cwd : Option String) : Except BuildErrorKind Output :=
  match ProcessEnv.exec penv (ExecutableSpec.name spec) args cwd with
  | (code, out, err) =>
    if code = 0 then Except.ok ⟨out, err⟩
    else Except.error (BuildErrorKind.CommandFailed (ExecutableSpec.name spec) code err)

/-- Modelled from the spec: `ExecutableRunner::run` (`src/executable.rs` is
missing) — discovery, then the version gate, then execution. -/
def ExecutableRunner.run (penv : ProcessEnv) (spec : ExecutableSpec) (args : List String)
    (cwd : Option String) : Except BuildErrorKind Output :=
  if ProcessEnv.found penv (ExecutableSpec.name spec) then
    match ExecutableSpec.required_version spec with
    | none => execPhase penv spec args cwd
    | some req =>
      match ProcessEnv.detectedVersion penv (ExecutableSpec.name spec) with
      | none => Except.error (BuildErrorKind.InternalError (ExecutableSpec.version_hint spec))
      | some v =>
        if req v then execPhase penv spec args cwd
        else
          Except.error (BuildErrorKind.CommandVersionNotFulfilled
            (ExecutableSpec.name spec) v (ExecutableSpec.version_hint spec))
  else
    Except.error (BuildErrorKind.CommandNotFound
      (ExecutableSpec.name spec) (ExecutableSpec.verification_hint spec))

/-- The trimming operation the spec ascribes to the runner's stdout
handling: drop a single trailing newline when one is present. -/
def trimSingleTrailingNewline (s : String) : String :=
  if List.getLast? (String.toList s) = some newlineChar then
    String.mk (List.dropLast (String.toList s))
  else s

/-! ### The builder pipeline

The file `src/builder.rs` of the repository is not part of the provided
sources; only its tests (`tests/builder.rs`) are.  The gated-check and the
pipeline are modelled from the spec (sections 4.5, 5 and 6), with the tests
fixing the environment markers (`PTX_CRATE_BUILDING` as the recursion
guard, `CARGO` naming the host binary, an `rls` host short-circuiting). -/

def rlsSuffix : String := "rls"

/-- Modelled from the spec: the environment markers `Builder::build`
consults — presence of the recursion-guard marker and the value of the
host-binary variable. -/
structure BuildEnv where
  recursion_guard_set : Bool
  cargo_host : Option String
  deriving DecidableEq, Repr

/-- Modelled from the spec: `Builder::is_build_needed` — a build is needed
unless the recursion guard is set or the host binary is a non-build tooling
host (RLS). -/
def is_build_needed (benv : BuildEnv) : Bool :=
  !(benv.recursion_guard_set
    || (match benv.cargo_host with
        | some s => strEndsWith s rlsSuffix
        | none => false))

/-- Terminal result of one builder invocation. -/
inductive BuildStatus where
  | Success (assembly_path : String)
  | NotNeeded
  deriving DecidableEq, Repr

/-- Modelled from the spec: the diagnostics parser applied to the captured
stderr — the rendered lines in emission order (the per-record JSON
extraction is the identity on already-rendered lines). -/
def newlineStr : String := "\n"

def parseDiagnostics (stderr : String) : List String := String.splitOn stderr newlineStr

/-- Modelled from the spec: `Builder::build` over an explicit cache state
(the set of created cache directories) — the gated check first, then
analyse once, resolve the effective kind, resolve and create the output
directory, invoke the toolchain, and re-label a `CommandFailed` of the
compile step as `BuildFailed` with parsed diagnostics.  When the gate
short-circuits, the cache state is returned untouched. -/
def build (benv : BuildEnv) (fs : Fs) (penv : ProcessEnv) (spec : ExecutableSpec)
    (args : List String) (outDir : String) (p : String) (cfg : BuildConfiguration)
    (cache : List String) : Except BuildErrorKind BuildStatus × List String :=
  if is_build_needed benv = false then (Except.ok BuildStatus.NotNeeded, cache)
  else
    match analyse fs p with
    | Except.error e => (Except.error e, cache)
    | Except.ok c =>
      match Crate.get_crate_type c (BuildConfiguration.crate_type cfg) with
      | Except.error e => (Except.error e, cache)
      | Except.ok _kind =>
        let out := Crate.output_path_value outDir c
        let cacheNext := out :: cache
        match ExecutableRunner.run penv spec args (some (Crate.path c)) with
        | Except.ok _ =>
          (Except.ok (BuildStatus.Success (joinPath out (Crate.output_file_prefix c))), cacheNext)
        | Except.error (BuildErrorKind.CommandFailed _ _ stderr) =>
          (Except.error (BuildErrorKind.BuildFailed (parseDiagnostics stderr)), cacheNext)
        | Except.error e => (Except.error e, cacheNext)

/-! ### Concrete fixtures

Concrete values mirroring the repository's test fixtures, used by the
witness and counterexample theorems. -/

def rootDirStr : String := "/checkout"

def samplePathArg : String := "tests/fixtures/sample-crate"

def sampleRoot : String := joinPath rootDirStr samplePathArg

def sampleManifest : String := joinPath sampleRoot cargoTomlFile

def sampleLibRs : String := joinPath (joinPath sampleRoot srcDir) libRsFile

def samplePkgName : String := "sample-ptx_crate"

def sampleToml : Toml := ⟨some samplePkgName, false, false⟩

/-- Filesystem snapshot of the `sample-crate` fixture: a file `Cargo.toml`
naming the package, a `src/lib.rs`, no `src/main.rs`, no `[lib]` or
`[[bin]]` section. -/
def sampleFs : Fs :=
  ⟨Except.ok rootDirStr,
   fun s => if s = sampleManifest then some ⟨false⟩ else none,
   fun s => if s = sampleManifest then Except.ok sampleToml else Except.error (),
   fun s => decide (s = sampleLibRs)⟩

/-- The crate `analyse` produces on `sampleFs`. -/
def sampleCrate : Crate := ⟨samplePkgName, sampleRoot, "sample_ptx_crate", CrateType.Library⟩

def mixedPathArg : String := "tests/fixtures/mixed-crate"

def mixedPkgName : String := "mixed_crate"

/-- A mixed crate fixture value. -/
def sampleMixedCrate : Crate :=
  ⟨mixedPkgName, joinPath rootDirStr mixedPathArg, mixedPkgName, CrateType.Mixed⟩

def outDirFixture : String := "/scratch/out"

/-- A filesystem snapshot with no manifest anywhere. -/
def missingFs : Fs :=
  ⟨Except.ok rootDirStr, fun _ => none, fun _ => Except.error (), fun _ => false⟩

def cargoName : String := "cargo"

def cargoVerificationHintStr : String := "Please make sure you have `cargo` installed"

def cargoVersionHintStr : String := "Please update your `cargo`"

/-- The cargo spec as the runner tests exercise it (no required version is
involved on the paths the tests pin). -/
def cargoTestSpec : ExecutableSpec :=
  ⟨cargoName, cargoVerificationHintStr, cargoVersionHintStr, none⟩

def sampleStdoutStr : String := "sample_ptx_crate\n"

def emptyStr : String := ""

def cargoArgs : List String := ["rustc", "-q", "--", "--print", "crate-name"]

/-- Process environment of `cargo::should_provide_output`: cargo is found
and the invocation exits zero printing the crate name with its trailing
newline. -/
def cargoRunEnv : ProcessEnv :=
  ⟨fun _ => true, fun _ => none, fun _ _ _ => (0, sampleStdoutStr, emptyStr)⟩

def almostUniqueName : String := "almost-unique-name"

def someUsefulHintStr : String := "Some useful hint"

def someUsefulVersionHintStr : String := "Some useful hint about version"

/-- `NonExistingCommand` of `tests/executable.rs`. -/
def nonExistingSpec : ExecutableSpec :=
  ⟨almostUniqueName, someUsefulHintStr, someUsefulVersionHintStr, none⟩

/-- A process environment in which no command can be located. -/
def notFoundEnv : ProcessEnv :=
  ⟨fun _ => false, fun _ => none, fun _ _ _ => (0, emptyStr, emptyStr)⟩

def rlsHostPath : String := "some/path/to/rls"

/-- The default build configuration (Release, no chosen kind, colors on). -/
def defaultCfg : BuildConfiguration := ⟨Builder.Profile.Release, none, true⟩

/-! ### Claims -/

/-- Claim C1 (corrected): output-cache resolution is a pure function of
the crate alone — it always yields the path
`<scratch-root>/<name-prefix>/<hash-hex>`, and the build configuration is
not an input: every two configurations give the same path, and
`Crate::get_output_path` returns exactly that path when the directory
creation succeeds. -/
theorem c1_output_path_pure_config_independent (outDir : String) (c : Crate)
    (cfg cfg' : BuildConfiguration) :
    outputPathOfUnitConfig outDir c cfg
      = joinPath (joinPath outDir (Crate.output_file_prefix c)) (hexStr (Crate.get_hash c))
    ∧ outputPathOfUnitConfig outDir c cfg = outputPathOfUnitConfig outDir c cfg'
    ∧ Crate.get_output_path outDir true c = Except.ok (outputPathOfUnitConfig outDir c cfg) :=
  ⟨rfl, rfl, rfl⟩

/-- Claim C1 counterexample: changing the profile (and even the chosen
kind) does not change the resolved output path — the claim that it does is
false at this concrete mixed crate. -/
theorem c1_profile_change_keeps_path :
    outputPathOfUnitConfig outDirFixture sampleMixedCrate
        ⟨Builder.Profile.Debug, some Builder.CrateType.Library, true⟩
      = outputPathOfUnitConfig outDirFixture sampleMixedCrate
        ⟨Builder.Profile.Release, some Builder.CrateType.Binary, true⟩
    ∧ Builder.Profile.Debug ≠ Builder.Profile.Release
    ∧ (some Builder.CrateType.Library : Option Builder.CrateType)
        ≠ some Builder.CrateType.Binary :=
  ⟨rfl, by decide, by decide⟩

/-- Claim C2: the kind-resolution matrix of `Crate::get_crate_type` — an
unambiguous crate returns its own kind when the request is absent or
matching and fails with `InvalidCrateType` on a mismatching request; a
mixed crate fails with `MissingCrateType` on an absent request and returns
any present request. -/
theorem c2_kind_resolution_matrix (c : Crate) :
    (Crate.crate_type c = CrateType.Library →
      Crate.get_crate_type c none = Except.ok Builder.CrateType.Library
      ∧ Crate.get_crate_type c (some Builder.CrateType.Library)
          = Except.ok Builder.CrateType.Library
      ∧ Crate.get_crate_type c (some Builder.CrateType.Binary)
          = Except.error (BuildErrorKind.InvalidCrateType binaryStr))
    ∧ (Crate.crate_type c = CrateType.Binary →
      Crate.get_crate_type c none = Except.ok Builder.CrateType.Binary
      ∧ Crate.get_crate_type c (some Builder.CrateType.Binary)
          = Except.ok Builder.CrateType.Binary
      ∧ Crate.get_crate_type c (some Builder.CrateType.Library)
          = Except.error (BuildErrorKind.InvalidCrateType libraryStr))
    ∧ (Crate.crate_type c = CrateType.Mixed →
      Crate.get_crate_type c none = Except.error BuildErrorKind.MissingCrateType
      ∧ ∀ t : Builder.CrateType, Crate.get_crate_type c (some t) = Except.ok t) := by
  refine ⟨fun h => ?_, fun h => ?_, fun h => ?_⟩
  · exact ⟨by simp [Crate.get_crate_type, h], by simp [Crate.get_crate_type, h],
      by simp [Crate.get_crate_type, h]⟩
  · exact ⟨by simp [Crate.get_crate_type, h], by simp [Crate.get_crate_type, h],
      by simp [Crate.get_crate_type, h]⟩
  · refine ⟨by simp [Crate.get_crate_type, h], fun t => ?_⟩
    cases t
    · simp [Crate.get_crate_type, h]
    · simp [Crate.get_crate_type, h]

/-- Claim C2 witness: the matrix instantiated at the sample library crate,
on the mismatching request. -/
theorem c2_kind_resolution_matrix_witness :
    Crate.get_crate_type sampleCrate (some Builder.CrateType.Binary)
      = Except.error (BuildErrorKind.InvalidCrateType binaryStr) :=
  ((c2_kind_resolution_matrix sampleCrate).1 rfl).2.2

/-- Claim C10: whenever `Crate::get_crate_type` succeeds, the resolved kind
is `Library` or `Binary` — never `Mixed`, which the result type cannot even
express. -/
theorem c10_resolved_kind_never_mixed (c : Crate) (t : Option Builder.CrateType)
    (r : Builder.CrateType) (h : Crate.get_crate_type c t = Except.ok r) :
    r = Builder.CrateType.Library ∨ r = Builder.CrateType.Binary := by
  cases r
  · exact Or.inl rfl
  · exact Or.inr rfl

/-- Claim C10 witness: the mixed crate with a requested binary kind
resolves to `Binary`. -/
theorem c10_resolved_kind_never_mixed_witness :
    Builder.CrateType.Binary = Builder.CrateType.Library
    ∨ Builder.CrateType.Binary = Builder.CrateType.Binary :=
  c10_resolved_kind_never_mixed sampleMixedCrate (some Builder.CrateType.Binary)
    Builder.CrateType.Binary rfl

/-- Claim C3: on a crate whose manifest is readable and names a package,
`Crate::analyse` classifies the kind from the `[lib]`/`[[bin]]` sections
and the conventional entry-point files — both indicators present gives
`Mixed`, exactly one gives that kind, and neither fails with
`InternalError`. -/
theorem c3_analyse_kind_matrix (fs : Fs) (p cwd : String) (m : FileMeta) (t : Toml)
    (nm : String)
    (hcwd : Fs.currentDir fs = Except.ok cwd)
    (hmeta : Fs.metadataAt fs (joinPath (joinPath cwd p) cargoTomlFile) = some m)
    (hdir : FileMeta.isDir m = false)
    (htoml : Fs.readToml fs (joinPath (joinPath cwd p) cargoTomlFile) = Except.ok t)
    (hname : Toml.packageName t = some nm) :
    ((Toml.hasLib t
        || Fs.pathExists fs (joinPath (joinPath (joinPath cwd p) srcDir) libRsFile)) = true →
      (Toml.hasBin t
        || Fs.pathExists fs (joinPath (joinPath (joinPath cwd p) srcDir) mainRsFile)) = true →
      analyse fs p = Except.ok ⟨nm, joinPath cwd p, replaceDashUnderscore nm, CrateType.Mixed⟩)
    ∧ ((Toml.hasLib t
        || Fs.pathExists fs (joinPath (joinPath (joinPath cwd p) srcDir) libRsFile)) = true →
      (Toml.hasBin t
        || Fs.pathExists fs (joinPath (joinPath (joinPath cwd p) srcDir) mainRsFile)) = false →
      analyse fs p = Except.ok ⟨nm, joinPath cwd p, replaceDashUnderscore nm, CrateType.Library⟩)
    ∧ ((Toml.hasLib t
        || Fs.pathExists fs (joinPath (joinPath (joinPath cwd p) srcDir) libRsFile)) = false →
      (Toml.hasBin t
        || Fs.pathExists fs (joinPath (joinPath (joinPath cwd p) srcDir) mainRsFile)) = true →
      analyse fs p = Except.ok ⟨nm, joinPath cwd p, replaceDashUnderscore nm, CrateType.Binary⟩)
    ∧ ((Toml.hasLib t
        || Fs.pathExists fs (joinPath (joinPath (joinPath cwd p) srcDir) libRsFile)) = false →
      (Toml.hasBin t
        || Fs.pathExists fs (joinPath (joinPath (joinPath cwd p) srcDir) mainRsFile)) = false →
      analyse fs p = Except.error (BuildErrorKind.InternalError noTargetMsg)) := by
  refine ⟨fun h1 h2 => ?_, fun h1 h2 => ?_, fun h1 h2 => ?_, fun h1 h2 => ?_⟩ <;>
    simp only [analyse, hcwd, hmeta, hdir, htoml, hname, h1, h2, Bool.false_eq_true, if_false]

/-- Claim C3 witness: the sample library fixture, whose only indicator is
`src/lib.rs`, analyses to a `Library` crate. -/
theorem c3_analyse_kind_matrix_witness :
    analyse sampleFs samplePathArg
      = Except.ok ⟨samplePkgName, joinPath rootDirStr samplePathArg,
          replaceDashUnderscore samplePkgName, CrateType.Library⟩ :=
  (c3_analyse_kind_matrix sampleFs samplePathArg rootDirStr ⟨false⟩ sampleToml samplePkgName
    rfl (by decide) rfl (by decide) rfl).2.1 (by decide) (by decide)

/-- Claim C4: `Crate::analyse` fails with `InvalidCratePath` at the
resolved path exactly when the metadata query for `Cargo.toml` directly
under it fails, or succeeds with a directory. -/
theorem c4_invalid_crate_path_iff (fs : Fs) (p cwd : String)
    (hcwd : Fs.currentDir fs = Except.ok cwd) :
    analyse fs p = Except.error (BuildErrorKind.InvalidCratePath (joinPath cwd p))
      ↔ (Fs.metadataAt fs (joinPath (joinPath cwd p) cargoTomlFile) = none
         ∨ ∃ m, Fs.metadataAt fs (joinPath (joinPath cwd p) cargoTomlFile) = some m
             ∧ FileMeta.isDir m = true) := by
  constructor
  · intro h
    cases hm : Fs.metadataAt fs (joinPath (joinPath cwd p) cargoTomlFile) with
    | none => exact Or.inl rfl
    | some m =>
      cases hd : FileMeta.isDir m with
      | true => exact Or.inr ⟨m, rfl, hd⟩
      | false =>
        exfalso
        simp only [analyse, hcwd, hm, hd, Bool.false_eq_true, if_false] at h
        cases ht : Fs.readToml fs (joinPath (joinPath cwd p) cargoTomlFile) with
        | error u => simp [ht] at h
        | ok t =>
          simp only [ht] at h
          cases hn : Toml.packageName t with
          | none => simp [hn] at h
          | some nm =>
            simp only [hn] at h
            cases hb : (Toml.hasBin t
              || Fs.pathExists fs (joinPath (joinPath (joinPath cwd p) srcDir) mainRsFile)) <;>
              cases hl : (Toml.hasLib t
                || Fs.pathExists fs (joinPath (joinPath (joinPath cwd p) srcDir) libRsFile)) <;>
              simp [hb, hl] at h
  · intro h
    rcases h with hm | ⟨m, hm, hd⟩
    · simp only [analyse, hcwd, hm]
    · simp [analyse, hcwd, hm, hd]

/-- Claim C4 witness: a root with no manifest at all satisfies the right
side through its first disjunct, so `analyse` fails with
`InvalidCratePath` there. -/
theorem c4_invalid_crate_path_iff_witness :
    analyse missingFs samplePathArg
        = Except.error (BuildErrorKind.InvalidCratePath (joinPath rootDirStr samplePathArg))
      ↔ (Fs.metadataAt missingFs (joinPath (joinPath rootDirStr samplePathArg) cargoTomlFile)
            = none
         ∨ ∃ m, Fs.metadataAt missingFs
              (joinPath (joinPath rootDirStr samplePathArg) cargoTomlFile) = some m
             ∧ FileMeta.isDir m = true) :=
  c4_invalid_crate_path_iff missingFs samplePathArg rootDirStr rfl

/-- Claim C5 (corrected): with the command found and no version gate, a
zero exit code returns the captured stdout and stderr exactly as captured
(no newline trimming), and a non-zero exit code fails with `CommandFailed`
carrying the command name, the exit code and the captured stderr. -/
theorem c5_run_exit_code (penv : ProcessEnv) (spec : ExecutableSpec) (args : List String)
    (cwd : Option String) (code : Int) (out err : String)
    (hfound : ProcessEnv.found penv (ExecutableSpec.name spec) = true)
    (hver : ExecutableSpec.required_version spec = none)
    (hexec : ProcessEnv.exec penv (ExecutableSpec.name spec) args cwd = (code, out, err)) :
    (code = 0 → ExecutableRunner.run penv spec args cwd = Except.ok ⟨out, err⟩)
    ∧ (code ≠ 0 → ExecutableRunner.run penv spec args cwd
        = Except.error (BuildErrorKind.CommandFailed (ExecutableSpec.name spec) code err)) := by
  constructor <;> intro h0 <;>
    simp [ExecutableRunner.run, execPhase, hfound, hver, hexec, h0]

/-- Claim C5 witness: the environment of `cargo::should_provide_output` —
exit zero with stdout `"sample_ptx_crate\n"` — returns that stdout. -/
theorem c5_run_exit_code_witness :
    ExecutableRunner.run cargoRunEnv cargoTestSpec cargoArgs (some sampleRoot)
      = Except.ok ⟨sampleStdoutStr, emptyStr⟩ :=
  (c5_run_exit_code cargoRunEnv cargoTestSpec cargoArgs (some sampleRoot) 0
    sampleStdoutStr emptyStr rfl rfl rfl).1 rfl

/-- Claim C5 counterexample: at the concrete input of
`cargo::should_provide_output` the runner returns the stdout with its
trailing newline intact, while the claimed trimming would have removed it —
so `run()` does not return the stdout trimmed of a trailing newline. -/
theorem c5_stdout_not_trimmed :
    ExecutableRunner.run cargoRunEnv cargoTestSpec cargoArgs (some sampleRoot)
      = Except.ok ⟨sampleStdoutStr, emptyStr⟩
    ∧ trimSingleTrailingNewline sampleStdoutStr ≠ sampleStdoutStr := by
  constructor
  · decide
  · decide

/-- Claim C6: with the recursion-guard marker set, or the host binary
naming RLS, `build()` returns `NotNeeded` and the cache state is returned
exactly as it was — no directory is created or modified. -/
theorem c6_gated_build_not_needed (benv : BuildEnv) (fs : Fs) (penv : ProcessEnv)
    (spec : ExecutableSpec) (args : List String) (outDir p : String)
    (cfg : BuildConfiguration) (cache : List String)
    (h : benv.recursion_guard_set = true
      ∨ ∃ s, benv.cargo_host = some s ∧ strEndsWith s rlsSuffix = true) :
    build benv fs penv spec args outDir p cfg cache = (Except.ok BuildStatus.NotNeeded, cache) := by
  have hneed : is_build_needed benv = false := by
    rcases h with h | ⟨s, hs, he⟩
    · simp [is_build_needed, h]
    · simp [is_build_needed, hs, he]
  simp [build, hneed]

/-- Claim C6 witness: both marker settings of the builder tests — the
recursion guard, and `CARGO` pointing at RLS — short-circuit to
`NotNeeded` with the (empty) cache untouched. -/
theorem c6_gated_build_not_needed_witness :
    build ⟨true, none⟩ sampleFs cargoRunEnv cargoTestSpec cargoArgs outDirFixture
        samplePathArg defaultCfg [] = (Except.ok BuildStatus.NotNeeded, [])
    ∧ build ⟨false, some rlsHostPath⟩ sampleFs cargoRunEnv cargoTestSpec cargoArgs
        outDirFixture samplePathArg defaultCfg [] = (Except.ok BuildStatus.NotNeeded, []) :=
  ⟨c6_gated_build_not_needed ⟨true, none⟩ sampleFs cargoRunEnv cargoTestSpec cargoArgs
      outDirFixture samplePathArg defaultCfg [] (Or.inl rfl),
   c6_gated_build_not_needed ⟨false, some rlsHostPath⟩ sampleFs cargoRunEnv cargoTestSpec
      cargoArgs outDirFixture samplePathArg defaultCfg []
      (Or.inr ⟨rlsHostPath, rfl, by decide⟩)⟩

/-- Claim C7: `Crate::analyse` is deterministic — two calls on the same
filesystem snapshot and working directory that both succeed agree on the
name, path, output file prefix and crate kind. -/
theorem c7_analyse_deterministic (fs : Fs) (p : String) (c₁ c₂ : Crate)
    (h₁ : analyse fs p = Except.ok c₁) (h₂ : analyse fs p = Except.ok c₂) :
    Crate.name c₁ = Crate.name c₂ ∧ Crate.path c₁ = Crate.path c₂
    ∧ Crate.output_file_prefix c₁ = Crate.output_file_prefix c₂
    ∧ Crate.crate_type c₁ = Crate.crate_type c₂ := by
  have e : Except.ok (ε := BuildErrorKind) c₁ = Except.ok c₂ := h₁ ▸ h₂
  injection e with e
  subst e
  exact ⟨rfl, rfl, rfl, rfl⟩

/-- Claim C7 witness: two successful analyses of the sample fixture agree
on all identity fields. -/
theorem c7_analyse_deterministic_witness :
    Crate.name sampleCrate = Crate.name sampleCrate
    ∧ Crate.path sampleCrate = Crate.path sampleCrate
    ∧ Crate.output_file_prefix sampleCrate = Crate.output_file_prefix sampleCrate
    ∧ Crate.crate_type sampleCrate = Crate.crate_type sampleCrate :=
  c7_analyse_deterministic sampleFs samplePathArg sampleCrate sampleCrate
    (by decide) (by decide)

/-- Claim C8: every successfully analysed crate stores as its output file
prefix the manifest name with every dash replaced by an underscore, and
`get_output_file_prefix` returns that stored field unchanged. -/
theorem c8_output_file_prefix_normalised (fs : Fs) (p : String) (c : Crate)
    (h : analyse fs p = Except.ok c) :
    Crate.output_file_prefix c = replaceDashUnderscore (Crate.name c)
    ∧ Crate.get_output_file_prefix c = Crate.output_file_prefix c := by
  refine ⟨?_, rfl⟩
  unfold analyse at h
  cases hcw : Fs.currentDir fs with
  | error u => simp [hcw] at h
  | ok cwd =>
    simp only [hcw] at h
    cases hm : Fs.metadataAt fs (joinPath (joinPath cwd p) cargoTomlFile) with
    | none => simp [hm] at h
    | some m =>
      simp only [hm] at h
      cases hd : FileMeta.isDir m with
      | true => simp [hd] at h
      | false =>
        simp only [hd, Bool.false_eq_true, if_false] at h
        cases ht : Fs.readToml fs (joinPath (joinPath cwd p) cargoTomlFile) with
        | error u => simp [ht] at h
        | ok t =>
          simp only [ht] at h
          cases hn : Toml.packageName t with
          | none => simp [hn] at h
          | some nm =>
            simp only [hn] at h
            cases hb : (Toml.hasBin t
              || Fs.pathExists fs (joinPath (joinPath (joinPath cwd p) srcDir) mainRsFile)) <;>
              cases hl : (Toml.hasLib t
                || Fs.pathExists fs (joinPath (joinPath (joinPath cwd p) srcDir) libRsFile)) <;>
              simp only [hb, hl] at h <;>
              first
              | (injection h with h; subst h; rfl)
              | simp at h

/-- Claim C8 witness: the sample fixture's prefix is its package name with
the dash replaced. -/
theorem c8_output_file_prefix_normalised_witness :
    Crate.output_file_prefix sampleCrate = replaceDashUnderscore (Crate.name sampleCrate)
    ∧ Crate.get_output_file_prefix sampleCrate = Crate.output_file_prefix sampleCrate :=
  c8_output_file_prefix_normalised sampleFs samplePathArg sampleCrate (by decide)

/-- Claim C9: when the command of a spec cannot be located in the
environment, `run()` fails with `CommandNotFound` carrying the command name
and exactly the spec's verification hint. -/
theorem c9_command_not_found (penv : ProcessEnv) (spec : ExecutableSpec)
    (args : List String) (cwd : Option String)
    (h : ProcessEnv.found penv (ExecutableSpec.name spec) = false) :
    ExecutableRunner.run penv spec args cwd
      = Except.error (BuildErrorKind.CommandNotFound
          (ExecutableSpec.name spec) (ExecutableSpec.verification_hint spec)) := by
  simp [ExecutableRunner.run, h]

/-- Claim C9 witness: `NonExistingCommand` of the runner tests fails with
its name and the exact hint string of its spec. -/
theorem c9_command_not_found_witness :
    ExecutableRunner.run notFoundEnv nonExistingSpec [] none
      = Except.error (BuildErrorKind.CommandNotFound almostUniqueName someUsefulHintStr) :=
  c9_command_not_found notFoundEnv nonExistingSpec [] none rfl

end PtxBuilder
